import Mathlib

/-!
Verification of the food-agent storage-and-query core.

This file gives a shallow embedding, in Lean 4, of the core of the
`food_agent` repository (the nutrition rounder, the daily-log query and
revision operations, the catalog store, the identity store and the tenant
path resolver), together with theorems settling the specification claims
about that core.

Modelling conventions:
* Python numbers (floats and ints) are modelled as rationals `ℚ`.
* Python's built-in `round` (round-half-to-even, "banker's rounding") is
  modelled by `pyRound` below.
* JSON values are modelled by the inductive type `JVal`; Python dicts are
  modelled as association lists in insertion order (`alookup` / `setKey`
  mirror `d[k]` / `d[k] = v`, and `dictUpdate` mirrors `dict.update`).
* File-system state is passed explicitly: per-date log files become an
  association list from date string to entry list, the `users.csv` backing
  file becomes a `UsersFile` value.
* Calls into Python standard-library matchers (`re.search`, a compiled
  regex possibly failing to compile, and `fnmatch.fnmatch`) are taken as
  function parameters: the theorems below hold for every matcher.
-/

set_option autoImplicit false

namespace FoodAgent

/-! ## Python's `round` builtin -/

/-- Python's builtin `round(x)`: round half to even ("banker's rounding").
`round(9.5) = 10`, `round(8.5) = 8`, `round(9.7) = 10`. -/
def pyRound (x : ℚ) : ℤ :=
  if x - ⌊x⌋ < 1/2 then ⌊x⌋
  else if 1/2 < x - ⌊x⌋ then ⌊x⌋ + 1
  else if ⌊x⌋ % 2 = 0 then ⌊x⌋ else ⌊x⌋ + 1

/-! ## NutritionRounder (`src/food_agent/sdk/rounding.py`) -/

/-- `NutritionRounder.round_calories`: `< 5 → 0`, `≤ 50 →` nearest 5,
`> 50 →` nearest 10; integer result. -/
def round_calories (val : ℚ) : ℤ :=
  if val < 5 then 0
  else if val ≤ 50 then pyRound (val / 5) * 5
  else pyRound (val / 10) * 10

/-- `NutritionRounder.round_fat`: `< 0.5 → 0`, `< 5 →` nearest 0.5,
`≥ 5 →` nearest 1. -/
def round_fat (val : ℚ) : ℚ :=
  if val < 1/2 then 0
  else if val < 5 then (pyRound (val * 2) : ℚ) / 2
  else (pyRound val : ℚ)

/-- `NutritionRounder.round_cholesterol`: `< 2 → 0`, else nearest 5. -/
def round_cholesterol (val : ℚ) : ℚ :=
  if val < 2 then 0 else ((pyRound (val / 5) * 5 : ℤ) : ℚ)

/-- `NutritionRounder.round_sodium`: `< 5 → 0`, `≤ 140 →` nearest 5,
`> 140 →` nearest 10. -/
def round_sodium (val : ℚ) : ℚ :=
  if val < 5 then 0
  else if val ≤ 140 then ((pyRound (val / 5) * 5 : ℤ) : ℚ)
  else ((pyRound (val / 10) * 10 : ℤ) : ℚ)

/-- `NutritionRounder.round_potassium` delegates to `round_sodium`. -/
def round_potassium (val : ℚ) : ℚ := round_sodium val

/-- `NutritionRounder.round_carb_fiber_sugar_protein`: `< 0.5 → 0`,
else nearest 1. -/
def round_carb_fiber_sugar_protein (val : ℚ) : ℚ :=
  if val < 1/2 then 0 else (pyRound val : ℚ)

/-- `NutritionRounder.round_generic`: Python `round(val, 1)`, one decimal
place (half-to-even). -/
def round_generic (val : ℚ) : ℚ := (pyRound (val * 10) : ℚ) / 10

/-- Python `needle in hay` on strings: substring test. -/
def substrIn (needle hay : String) : Bool := decide (List.IsInfix needle.toList hay.toList)

/-- Python `s.lower()`, character by character (the keys and filter terms
this system lower-cases are ASCII). -/
def strLower (s : String) : String := String.mk (s.toList.map Char.toLower)

/-- The per-key body of `NutritionRounder.round_all`: lower-case the key and
dispatch on substring membership, in the if/elif order of the source
(`calor`, `fat`, `cholest`, `sodium`, `potass`, then the gram nutrients,
else the generic one-decimal rule). -/
def dispatch (key : String) (val : ℚ) : ℚ :=
  if substrIn "calor" (strLower key) then ((round_calories val : ℤ) : ℚ)
  else if substrIn "fat" (strLower key) then round_fat val
  else if substrIn "cholest" (strLower key) then round_cholesterol val
  else if substrIn "sodium" (strLower key) then round_sodium val
  else if substrIn "potass" (strLower key) then round_potassium val
  else if substrIn "carb" (strLower key) || substrIn "fiber" (strLower key)
       || substrIn "sugar" (strLower key) || substrIn "protein" (strLower key) then
    round_carb_fiber_sugar_protein val
  else round_generic val

/-- `NutritionRounder.round_all`: apply the dispatched rule to every
key/value pair of the nutrient mapping, skipping entries whose value is
`None` (`null`).  The mapping is modelled as an association list in
insertion order; a `None` value is `Option.none`. -/
def round_all (nutrients : List (String × Option ℚ)) : List (String × ℚ) :=
  nutrients.filterMap (fun kv =>
    match kv.2 with
    | none => none
    | some v => some (kv.1, dispatch kv.1 v))

/-! ## The rounding-rule table as the specification words it

The following predicates are modelled from the spec (§4.5): "nearest `s`"
means "a multiple of `s` at distance at most `s / 2`", so that every value
admits a nearest multiple and a tie lies at distance exactly `s / 2` from
both candidates. -/

/-- `r` is an integer multiple of the step `s`. -/
def IsMultipleOf (s r : ℚ) : Prop := ∃ n : ℤ, r = s * n

/-- `r` is a nearest multiple of `s` to `v`. -/
def NearestMult (s r v : ℚ) : Prop := IsMultipleOf s r ∧ |r - v| ≤ s / 2

/-- `r` has an integer value. -/
def IsIntValued (r : ℚ) : Prop := ∃ n : ℤ, r = n

/-- Spec rule for keys containing `calor`: `< 5 → 0`; `≤ 50 →` nearest 5;
`> 50 →` nearest 10; integer result. -/
def calorieRule (v r : ℚ) : Prop :=
  IsIntValued r ∧ (v < 5 → r = 0) ∧ (5 ≤ v → v ≤ 50 → NearestMult 5 r v) ∧
    (50 < v → NearestMult 10 r v)

/-- Spec rule for keys containing `fat`: `< 0.5 → 0`; `< 5 →` nearest 0.5;
`≥ 5 →` nearest 1. -/
def fatRule (v r : ℚ) : Prop :=
  (v < 1/2 → r = 0) ∧ (1/2 ≤ v → v < 5 → NearestMult (1/2) r v) ∧
    (5 ≤ v → NearestMult 1 r v)

/-- Spec rule for keys containing `cholest`: `< 2 → 0`; else nearest 5. -/
def cholesterolRule (v r : ℚ) : Prop :=
  (v < 2 → r = 0) ∧ (2 ≤ v → NearestMult 5 r v)

/-- Spec rule for keys containing `sodium` or `potass`: `< 5 → 0`;
`≤ 140 →` nearest 5; `> 140 →` nearest 10. -/
def sodiumRule (v r : ℚ) : Prop :=
  (v < 5 → r = 0) ∧ (5 ≤ v → v ≤ 140 → NearestMult 5 r v) ∧
    (140 < v → NearestMult 10 r v)

/-- Spec rule for keys containing `carb`, `fiber`, `sugar` or `protein`:
`< 0.5 → 0`; else nearest 1. -/
def gramRule (v r : ℚ) : Prop :=
  (v < 1/2 → r = 0) ∧ (1/2 ≤ v → NearestMult 1 r v)

/-- Spec rule for any other key: round to one decimal place. -/
def oneDecimalRule (v r : ℚ) : Prop := NearestMult (1/10) r v

/-- Modelled from the spec: the rule the table of §4.5 selects for a key,
by case-insensitive substring match.  A key matching several table rows
(impossible for real nutrient names) gets the first matching row, in the
order the spec lists them, matching the if/elif order of the source. -/
def specRuleFor (key : String) (v r : ℚ) : Prop :=
  if substrIn "calor" (strLower key) then calorieRule v r
  else if substrIn "fat" (strLower key) then fatRule v r
  else if substrIn "cholest" (strLower key) then cholesterolRule v r
  else if substrIn "sodium" (strLower key) then sodiumRule v r
  else if substrIn "potass" (strLower key) then sodiumRule v r
  else if substrIn "carb" (strLower key) || substrIn "fiber" (strLower key)
       || substrIn "sugar" (strLower key) || substrIn "protein" (strLower key) then
    gramRule v r
  else oneDecimalRule v r

/-! ## JSON values and Python dicts -/

/-- A JSON value as `json.load` produces it: `None`, booleans, numbers
(modelled as `ℚ`), strings, arrays and objects.  Objects are association
lists in insertion order. -/
inductive JVal where
  | jnull : JVal
  | jbool : Bool → JVal
  | jnum : ℚ → JVal
  | jstr : String → JVal
  | jarr : List JVal → JVal
  | jobj : List (String × JVal) → JVal

/-- Python `d.get(k)` on a dict modelled as an association list. -/
def alookup {α : Type} (m : List (String × α)) (k : String) : Option α :=
  match m with
  | [] => none
  | (k', v) :: rest => if k' = k then some v else alookup rest k

/-- Python `d[k] = v`: replace the value of an existing key in place
(keeping insertion order), or append a new key at the end. -/
def setKey {α : Type} (m : List (String × α)) (k : String) (v : α) : List (String × α) :=
  match m with
  | [] => [(k, v)]
  | (k', v') :: rest => if k' = k then (k, v) :: rest else (k', v') :: setKey rest k v

/-- Python `d.update(updates)`: shallow merge, updated keys replace,
untouched keys persist, new keys are appended in `updates` order. -/
def dictUpdate {α : Type} (m updates : List (String × α)) : List (String × α) :=
  updates.foldl (fun acc kv => setKey acc kv.1 kv.2) m

/-- A daily-log entry (`ConsumedEntry`) or a catalog record (`FoodRecord`):
a JSON object. -/
abbrev Entry := List (String × JVal)

/-- `item.get(k, '')` for the string-valued fields used by filtering
(`food_name`, `user_description`).  The source calls `.lower()` on the
result, which raises (and is reported as an error result) when the stored
value is present but not a string; that case is modelled as `""`. -/
def getStrD (e : Entry) (k : String) : String :=
  match alookup e k with
  | some (JVal.jstr s) => s
  | _ => ""

/-- `item.get("consumed", {}).get("nutrition", {})`: the nutrient mapping
of an entry, empty when either level is absent (or not an object, which in
the source would raise and surface as an error result). -/
def getNutrition (e : Entry) : List (String × JVal) :=
  match alookup e "consumed" with
  | some (JVal.jobj c) =>
    match alookup c "nutrition" with
    | some (JVal.jobj n) => n
    | _ => []
  | _ => []

/-- The numeric value of a JSON value under Python's
`isinstance(val, (int, float))`: numbers count, and so do booleans
(`bool` is a subclass of `int`, `True == 1`); everything else does not. -/
def numVal : JVal → Option ℚ
  | JVal.jnum q => some q
  | JVal.jbool b => some (if b then 1 else 0)
  | _ => none

/-! ## Daily-log query (`FoodAgentSDK.get_food_log`, `src/food_agent/sdk/core.py`) -/

/-- The fixed set of tracked nutrients summed into `totals`, in source
order. -/
def trackedNutrients : List String :=
  ["calories", "protein", "carbs", "fat", "sodium", "potassium", "fiber", "sugar"]

/-- The zero-initialised `totals` dict. -/
def initTotals : List (String × ℚ) := trackedNutrients.map (fun n => (n, 0))

/-- One item's contribution to one tracked nutrient:
`consumed_nutrition.get(nutrient, 0)` when numeric, else `0`. -/
def contrib (it : Entry) (n : String) : ℚ :=
  match alookup (getNutrition it) n with
  | none => 0
  | some v => (numVal v).getD 0

/-- The inner loop of the totals computation: add one item's numeric
nutrient values to the running totals dict. -/
def addItemTotals (totals : List (String × ℚ)) (it : Entry) : List (String × ℚ) :=
  totals.map (fun kv => (kv.1, kv.2 + contrib it kv.1))

/-- The exact (unrounded) sum of one tracked nutrient over a list of
items. -/
def exactSum (items : List Entry) (n : String) : ℚ :=
  items.foldl (fun acc it => acc + contrib it n) 0

/-- The filter-match test for one item, translated from the filtering loop
of `get_food_log`: an item matches when any filter term matches its
lower-cased `food_name` or `user_description`.  A term is a regex when
`use_regex` is set (`reM` stands for `re.search` with `re.IGNORECASE`;
`reM f = none` models an invalid regex, which the source logs and skips),
a glob when it contains `*` or `?` (`fnM` stands for `fnmatch.fnmatch`),
and a plain substring otherwise. -/
def itemMatches (reM : String → Option (String → Bool)) (fnM : String → String → Bool)
    (filters : List String) (use_regex : Bool) (item : Entry) : Bool :=
  let targets : List String :=
    [strLower (getStrD item "food_name"), strLower (getStrD item "user_description")]
  filters.any (fun f =>
    if use_regex then
      match reM f with
      | some m => targets.any m
      | none => false
    else if f.toList.contains '*' || f.toList.contains '?' then
      targets.any (fun t => fnM t f)
    else
      targets.any (fun t => substrIn f t))

/-- The `if filter_text:` block of `get_food_log`.  `filter_text` is
either absent, or a list of terms (the source also accepts a single
string, which it wraps into a one-term list); an empty list is falsy in
Python, so no filtering happens.  Terms are lower-cased before
matching. -/
def applyFilter (reM : String → Option (String → Bool)) (fnM : String → String → Bool)
    (items : List Entry) (filter_text : Option (List String)) (use_regex : Bool) :
    List Entry :=
  match filter_text with
  | none => items
  | some [] => items
  | some fs => items.filter (itemMatches reM fnM (fs.map strLower) use_regex)

/-- Leap year as `datetime` knows it. -/
def isLeap (y : Nat) : Bool := (y % 4 == 0 && y % 100 != 0) || y % 400 == 0

/-- Days in a month. -/
def daysInMonth (y m : Nat) : Nat :=
  if m = 2 then (if isLeap y then 29 else 28)
  else if m = 4 || m = 6 || m = 9 || m = 11 then 30
  else 31

/-- Split a character list on `'-'` (Python `s.split("-")` as
`strptime`'s format matching sees the groups). -/
def splitDash (l : List Char) : List (List Char) :=
  match l with
  | [] => [[]]
  | c :: rest =>
    if c = '-' then [] :: splitDash rest
    else
      match splitDash rest with
      | [] => [[c]]
      | g :: gs => (c :: g) :: gs

/-- The numeric value of a digit group. -/
def digitsToNat (l : List Char) : Nat :=
  l.foldl (fun a c => a * 10 + (c.toNat - '0'.toNat)) 0

/-- Validity of a date string under
`datetime.strptime(entry_date, "%Y-%m-%d")`: three dash-separated digit
groups of bounded width forming a real calendar date (leap years
included). -/
def validDate (s : String) : Bool :=
  match splitDash s.toList with
  | [ys, ms, ds] =>
    ys.all Char.isDigit && ms.all Char.isDigit && ds.all Char.isDigit &&
    !ys.isEmpty && ys.length ≤ 4 && !ms.isEmpty && ms.length ≤ 2 &&
    !ds.isEmpty && ds.length ≤ 2 &&
    (let y := digitsToNat ys
     let mo := digitsToNat ms
     let d := digitsToNat ds
     1 ≤ y && 1 ≤ mo && mo ≤ 12 && 1 ≤ d && d ≤ daysInMonth y mo)
  | _ => false

/-- The structured failure results of the log store.  The source returns
`{"error": msg}` with a formatted message; each message shape is modelled
as a constructor carrying the interpolated data. -/
inductive LogError where
  | invalidDate : String → LogError
  | notFoundDate : String → LogError
  | notFoundEntry : String → String → LogError

/-- Date resolution shared by `get_food_log`, `revise_log_entry` and
`log_food`: an explicit date must parse as `YYYY-MM-DD`, otherwise the
"effective today" (`config.get_effective_today()`, a clock input passed
here as `today`) is used. -/
def resolveDate (entry_date : Option String) (today : String) : Except LogError String :=
  match entry_date with
  | some d => if validDate d then Except.ok d else Except.error (LogError.invalidDate d)
  | none => Except.ok today

/-- A non-error result of `get_food_log`: the `response` dict.  Absent
keys are `none`. -/
structure QueryResult where
  date : String
  totals : Option (List (String × ℚ))
  items : Option (List Entry)
  message : Option String

/-- The record the source returns when no log file exists for the
resolved date: `{"date", "items": [], "message"}` — note it carries NO
`totals` key. -/
def emptyDayResult (td : String) : QueryResult :=
  { date := td, totals := none, items := some [],
    message := some "No logs found for this date." }

/-- The per-item display rounding of `get_food_log`: when the entry has a
`consumed` object with a `nutrition` object, replace the nutrition mapping
by its rounded form (null-valued nutrients dropped); otherwise the entry
is returned as is. -/
def roundEntry (e : Entry) : Entry :=
  match alookup e "consumed" with
  | some (JVal.jobj c) =>
    match alookup c "nutrition" with
    | some (JVal.jobj n) =>
      let rn := (round_all (n.map (fun kv => (kv.1, numVal kv.2)))).map
        (fun kv => (kv.1, JVal.jnum kv.2))
      setKey e "consumed" (JVal.jobj (setKey c "nutrition" (JVal.jobj rn)))
    | _ => e
  | _ => e

/-- `FoodAgentSDK.get_food_log`.  The per-tenant daily directory is
modelled as an association list from date string to the parsed entry list
of `<date>_food-log.json`; an absent key is an absent file.  `reM`/`fnM`
are the standard-library matchers (see `itemMatches`), `today` the
effective-today clock input. -/
def get_food_log (reM : String → Option (String → Bool)) (fnM : String → String → Bool)
    (store : List (String × List Entry)) (today : String)
    (entry_date : Option String) (incl : String)
    (filter_text : Option (List String)) (use_regex : Bool) :
    Except LogError QueryResult :=
  match resolveDate entry_date today with
  | Except.error e => Except.error e
  | Except.ok target_date =>
    match alookup store target_date with
    | none =>
      Except.ok { date := target_date, totals := none, items := some [],
                  message := some "No logs found for this date." }
    | some items0 =>
      let items := applyFilter reM fnM items0 filter_text use_regex
      let totals := round_all
        ((items.foldl addItemTotals initTotals).map (fun kv => (kv.1, some kv.2)))
      if incl ≠ "totals" then
        Except.ok { date := target_date, totals := some totals,
                    items := some (items.map roundEntry), message := none }
      else
        Except.ok { date := target_date, totals := some totals, items := none,
                    message := none }

/-- The rounded totals mapping the query computes from the filtered item
list: the exact per-nutrient sums, rounded once. -/
def queryTotals (reM : String → Option (String → Bool)) (fnM : String → String → Bool)
    (items0 : List Entry) (ft : Option (List String)) (ur : Bool) :
    List (String × ℚ) :=
  round_all (((applyFilter reM fnM items0 ft ur).foldl addItemTotals initTotals).map
    (fun kv => (kv.1, some kv.2)))

/-- `get_food_log` as a state transition on the stored files, for the
frame property: the source opens the log file for reading only and never
writes, so the store component is returned unchanged, in contrast with
`revise_log_entry` below which persists a new collection. -/
def queryOp (reM : String → Option (String → Bool)) (fnM : String → String → Bool)
    (store : List (String × List Entry)) (today : String)
    (entry_date : Option String) (incl : String)
    (filter_text : Option (List String)) (use_regex : Bool) :
    List (String × List Entry) × Except LogError QueryResult :=
  (store, get_food_log reM fnM store today entry_date incl filter_text use_regex)

/-- `item.get('food_name') == old_food_name`: exact, case-sensitive
comparison; a missing or non-string `food_name` never equals the target
string. -/
def entryNameIs (e : Entry) (n : String) : Bool :=
  match alookup e "food_name" with
  | some (JVal.jstr s) => s == n
  | _ => false

/-- `FoodAgentSDK.revise_log_entry`: resolve the date; fail when the date
file is absent; shallow-merge `updates` into every entry whose
`food_name` exactly equals `old_food_name`; fail (without persisting)
when no entry matched; otherwise persist the whole collection.  The
source reports the count of updated entries in its success message; the
count is the model's success value. -/
def revise_log_entry (store : List (String × List Entry)) (today : String)
    (old_food_name : String) (updates : List (String × JVal))
    (entry_date : Option String) :
    List (String × List Entry) × Except LogError Nat :=
  match resolveDate entry_date today with
  | Except.error e => (store, Except.error e)
  | Except.ok target_date =>
    match alookup store target_date with
    | none => (store, Except.error (LogError.notFoundDate target_date))
    | some items =>
      let updated_count := (items.filter (fun it => entryNameIs it old_food_name)).length
      if updated_count = 0 then
        (store, Except.error (LogError.notFoundEntry old_food_name target_date))
      else
        (setKey store target_date
          (items.map (fun it =>
            if entryNameIs it old_food_name then dictUpdate it updates else it)),
         Except.ok updated_count)

/-! ## Catalog store (`FoodAgentSDK.add_to_catalog`) -/

/-- Python truthiness of a JSON value: `None`, `False`, `0`, `""`, `[]`
and `{}` are falsy. -/
def truthy : JVal → Bool
  | JVal.jnull => false
  | JVal.jbool b => b
  | JVal.jnum q => q != 0
  | JVal.jstr s => s != ""
  | JVal.jarr a => !a.isEmpty
  | JVal.jobj o => !o.isEmpty

/-- The outcome of `add_to_catalog`.  `validationError` is the
`"food_item must have a 'food_name'."` error (`if not name:`),
`duplicateKey` the `"already exists in catalog"` error, and `typeTrap`
the `AttributeError` the source would hit calling `.lower()` on a truthy
non-string `food_name` (caught by the generic handler). -/
inductive AddOutcome where
  | validationError : AddOutcome
  | duplicateKey : AddOutcome
  | typeTrap : AddOutcome
  | added : AddOutcome

/-- `item.get('food_name').lower() == name.lower()` for one existing
catalog record, assuming (as the catalog invariant guarantees) that stored
records carry string names; a record without a string `food_name` matches
nothing. -/
def catalogNameMatches (r : Entry) (name : String) : Bool :=
  match alookup r "food_name" with
  | some (JVal.jstr s) => strLower s == strLower name
  | _ => false

/-- `FoodAgentSDK.add_to_catalog`: reject a falsy `food_name`; reject a
case-insensitive duplicate; otherwise append the record and persist.  The
catalog file content is the explicit state, returned unchanged on every
failure (the source returns before `_save_catalog` in those branches). -/
def add_to_catalog (catalog : List Entry) (food_item : Entry) :
    List Entry × AddOutcome :=
  let nameV := (alookup food_item "food_name").getD JVal.jnull
  if !truthy nameV then (catalog, AddOutcome.validationError)
  else
    match nameV with
    | JVal.jstr name =>
      if catalog.any (fun r => catalogNameMatches r name) then
        (catalog, AddOutcome.duplicateKey)
      else (catalog ++ [food_item], AddOutcome.added)
    | _ => (catalog, AddOutcome.typeTrap)

/-! ## Identity store (`UserStore`, `src/food_agent/sdk/users.py`) -/

/-- The `users.csv` backing file: absent, present but failing to read
(e.g. a NUL byte makes `csv.reader` raise), or a readable list of rows,
each row a list of fields. -/
inductive UsersFile where
  | absent : UsersFile
  | unreadable : UsersFile
  | rows : List (List String) → UsersFile

/-- The identity store: the in-memory PAT→tenant cache and the backing
file. -/
structure UserStoreState where
  cache : List (String × String)
  file : UsersFile

/-- One iteration of the `csv.reader` loop of `refresh_cache`: rows with
at least two fields set `new_cache[row[0]] = row[1]` (later rows with the
same token win); shorter rows are skipped. -/
def parseRow (acc : List (String × String)) (row : List String) : List (String × String) :=
  match row with
  | p :: e :: _ => setKey acc p e
  | _ => acc

/-- The full parse of a readable `users.csv`. -/
def parseRows (rs : List (List String)) : List (String × String) :=
  rs.foldl parseRow []

/-- `UserStore.refresh_cache`: an absent file resets the cache to empty;
a readable file replaces the cache with the parsed rows; a read error is
logged and the previous cache is returned unchanged.  Returns the new
state and the value `refresh_cache` returns. -/
def refresh_cache (s : UserStoreState) : UserStoreState × List (String × String) :=
  match s.file with
  | UsersFile.absent => ({ s with cache := [] }, [])
  | UsersFile.unreadable => (s, s.cache)
  | UsersFile.rows rs =>
    let nc := parseRows rs
    ({ s with cache := nc }, nc)

/-- `UserStore.get_user_by_pat`: consult the in-memory cache first; on a
miss, reload from the backing file and look again; `none` is the NotFound
result. -/
def get_user_by_pat (s : UserStoreState) (pat : String) :
    UserStoreState × Option String :=
  match alookup s.cache pat with
  | some email => (s, some email)
  | none =>
    let s2 := (refresh_cache s).1
    (s2, alookup s2.cache pat)

/-- `UserStore.add_user`: reload, set/overwrite the entry for `pat`, and
rewrite the whole backing file from the cache. -/
def add_user (s : UserStoreState) (pat email : String) : UserStoreState :=
  let s1 := (refresh_cache s).1
  let nc := setKey s1.cache pat email
  { cache := nc, file := UsersFile.rows (nc.map (fun pe => [pe.1, pe.2])) }

/-- The staleness-window scenario of the spec: after `add_user s0 tok u1`,
a process-external writer rewrites the backing file to map `tok` to `u2`;
the in-memory cache still holds the `add_user` result. -/
def staleState (s0 : UserStoreState) (tok u1 u2 : String) : UserStoreState :=
  { cache := (add_user s0 tok u1).cache, file := UsersFile.rows [[tok, u2]] }

/-! ## Tenant path resolver (`get_app_data_dir`, `src/food_agent/sdk/config.py`) -/

/-- Python's `str.isalnum()` for one character.  It is Unicode-aware:
true for every Unicode letter, digit or numeric character, not only
ASCII.  The model is exact for all code points below `0x100` (ASCII plus
Latin-1, whose alphanumerics are the ASCII ones, `ª² ³µ¹º¼½¾`, and the
letters `À`–`ÿ` except `×` and `÷`); no statement below evaluates it
beyond that range. -/
def pyIsAlnum (c : Char) : Bool :=
  c.isAlphanum ||
  (c.toNat == 0xAA || c.toNat == 0xB2 || c.toNat == 0xB3 || c.toNat == 0xB5 ||
   c.toNat == 0xB9 || c.toNat == 0xBA || c.toNat == 0xBC || c.toNat == 0xBD ||
   c.toNat == 0xBE ||
   (0xC0 ≤ c.toNat && c.toNat ≤ 0xFF && c.toNat != 0xD7 && c.toNat != 0xF7))

/-- One character of the sanitizer:
`c if c.isalnum() or c in "-_." else "_"`. -/
def sanitizeChar (c : Char) : Char :=
  if pyIsAlnum c || c == '-' || c == '_' || c == '.' then c else '_'

/-- The tenant-id sanitizer of `get_app_data_dir`:
`"".join(c if c.isalnum() or c in "-_." else "_" for c in user)`. -/
def sanitize (user : String) : String := String.mk (user.toList.map sanitizeChar)

/-- `get_app_data_dir`: the sentinel tenant `"default"` uses the base data
root unchanged; any other tenant gets the sanitized subdirectory.  Paths
are modelled as segment lists. -/
def get_app_data_dir (base : List String) (user : String) : List String :=
  if user = "default" then base else base ++ [sanitize user]

/-- Modelled from the claim's words, for comparison only: a sanitizer
keeping exactly `[A-Za-z0-9._-]` (`Char.isAlphanum` is that ASCII set)
and replacing every other character with `_`. -/
def claimSanitizeChar (c : Char) : Char :=
  if c.isAlphanum || c == '-' || c == '_' || c == '.' then c else '_'

/-- The claim's ASCII-only sanitizer lifted to strings. -/
def claimSanitize (user : String) : String := String.mk (user.toList.map claimSanitizeChar)

/-! ## Concrete fixtures used by witnesses and counterexamples -/

/-- A trivial regex table: every pattern is invalid.  The concrete
queries below pass no filter, so the matcher is never consulted. -/
def noRegex : String → Option (String → Bool) := fun _ => none

/-- A trivial glob matcher; never consulted by the concrete queries
below. -/
def noGlob : String → String → Bool := fun _ _ => false

/-- A logged burger: 95 raw calories. -/
def burgerEntry : Entry :=
  [("food_name", JVal.jstr "Burger"),
   ("consumed", JVal.jobj [("nutrition", JVal.jobj [("calories", JVal.jnum 95)])])]

/-- A logged mint: 2 raw calories. -/
def mintEntry : Entry :=
  [("food_name", JVal.jstr "Mint"),
   ("consumed", JVal.jobj [("nutrition", JVal.jobj [("calories", JVal.jnum 2)])])]

/-- A one-day store holding the burger and the mint (the aggregation
example of the spec). -/
def aggStore : List (String × List Entry) := [("2026-01-10", [burgerEntry, mintEntry])]

/-- The rounded totals of the burger-and-mint day: the exact sum 97
rounds once, as a calorie value, to 100. -/
def aggTotals : List (String × ℚ) :=
  [("calories", 100), ("protein", 0), ("carbs", 0), ("fat", 0),
   ("sodium", 0), ("potassium", 0), ("fiber", 0), ("sugar", 0)]

/-- An entry stored at raw precision: 7.2 calories. -/
def rawEntry : Entry :=
  [("food_name", JVal.jstr "Snack"),
   ("consumed", JVal.jobj [("nutrition", JVal.jobj [("calories", JVal.jnum (36/5))])])]

/-- A one-day store holding the raw-precision entry. -/
def rawStore : List (String × List Entry) := [("2026-01-10", [rawEntry])]

/-- The query result for the raw-precision store with `include = "all"`
(fields spelled in the unreduced form the query computes them in). -/
def rawQueryResult : QueryResult :=
  { date := "2026-01-10",
    totals := some (round_all (([rawEntry].foldl addItemTotals initTotals).map
      (fun kv => (kv.1, some kv.2)))),
    items := some ([rawEntry].map roundEntry),
    message := none }

/-- Two same-named coffee entries on one date, for the revision-ambiguity
example. -/
def coffeeEntryA : Entry := [("food_name", JVal.jstr "Coffee"), ("size", JVal.jstr "S")]

/-- The second coffee entry. -/
def coffeeEntryB : Entry := [("food_name", JVal.jstr "Coffee"), ("size", JVal.jstr "L")]

/-- The store with the two coffees. -/
def coffeeStore : List (String × List Entry) := [("2026-01-10", [coffeeEntryA, coffeeEntryB])]

/-- The full query result for the burger-and-mint day with
`include = "totals"`. -/
def aggResult : QueryResult :=
  { date := "2026-01-10", totals := some aggTotals, items := none, message := none }

/-- An identity store that has loaded nothing yet and has no backing
file. -/
def emptyUserStore : UserStoreState := { cache := [], file := UsersFile.absent }

/-- An identity store whose cache already holds one pair. -/
def seededUserStore : UserStoreState :=
  { cache := [("p", "e")], file := UsersFile.absent }

/-! ## Helper lemmas -/

/-- `pyRound` lands within distance `1/2` of its argument: it is a nearest
integer (ties broken towards the even one). -/
theorem pyRound_dist (x : ℚ) : |(pyRound x : ℚ) - x| ≤ 1/2 := by
  have h1 : (⌊x⌋ : ℚ) ≤ x := Int.floor_le x
  have h2 : x < ⌊x⌋ + 1 := Int.lt_floor_add_one x
  by_cases ha : x - ⌊x⌋ < 1/2
  · rw [pyRound, if_pos ha, abs_le]
    constructor <;> linarith
  · by_cases hb : (1:ℚ)/2 < x - ⌊x⌋
    · rw [pyRound, if_neg ha, if_pos hb, abs_le]
      constructor <;> push_cast <;> linarith
    · by_cases hc : ⌊x⌋ % 2 = 0
      · rw [pyRound, if_neg ha, if_neg hb, if_pos hc, abs_le]
        constructor <;> linarith [not_lt.mp ha, not_lt.mp hb]
      · rw [pyRound, if_neg ha, if_neg hb, if_neg hc, abs_le]
        constructor <;> push_cast <;> linarith [not_lt.mp ha, not_lt.mp hb]

/-- `round(v / s) * s` is within `s / 2` of `v`: it is a nearest multiple
of the step `s`. -/
theorem pyRound_mul_dist (v s : ℚ) (hs : 0 < s) :
    |(pyRound (v / s) : ℚ) * s - v| ≤ s / 2 := by
  have h := pyRound_dist (v / s)
  have hne : s ≠ 0 := ne_of_gt hs
  have e : (pyRound (v / s) : ℚ) * s - v = ((pyRound (v / s) : ℚ) - v / s) * s := by
    field_simp
  rw [e, abs_mul, abs_of_pos hs]
  have h3 := mul_le_mul_of_nonneg_right h (le_of_lt hs)
  linarith

/-- `round(v * d) / d` is within `1 / (2 * d)` of `v`: it is a nearest
multiple of `1 / d`. -/
theorem pyRound_div_dist (v d : ℚ) (hd : 0 < d) :
    |(pyRound (v * d) : ℚ) / d - v| ≤ 1 / (2 * d) := by
  have h := pyRound_dist (v * d)
  have hne : d ≠ 0 := ne_of_gt hd
  have e : (pyRound (v * d) : ℚ) / d - v = ((pyRound (v * d) : ℚ) - v * d) / d := by
    field_simp
    ring
  calc |(pyRound (v * d) : ℚ) / d - v|
      = |(pyRound (v * d) : ℚ) - v * d| / d := by rw [e, abs_div, abs_of_pos hd]
    _ ≤ (1/2) / d := by gcongr
    _ = 1 / (2 * d) := by rw [div_div]

theorem round_calories_rule (v : ℚ) : calorieRule v ((round_calories v : ℤ) : ℚ) := by
  refine ⟨⟨round_calories v, rfl⟩, ?_, ?_, ?_⟩
  · intro h
    simp [round_calories, h]
  · intro h1 h2
    rw [round_calories, if_neg (not_lt.mpr h1), if_pos h2]
    refine ⟨⟨pyRound (v / 5), by push_cast; ring⟩, ?_⟩
    have h3 := pyRound_mul_dist v 5 (by norm_num)
    calc |((pyRound (v / 5) * 5 : ℤ) : ℚ) - v|
        = |(pyRound (v / 5) : ℚ) * 5 - v| := by push_cast; ring_nf
      _ ≤ 5 / 2 := h3
  · intro h1
    rw [round_calories, if_neg (by linarith : ¬ v < 5), if_neg (not_le.mpr h1)]
    refine ⟨⟨pyRound (v / 10), by push_cast; ring⟩, ?_⟩
    have h3 := pyRound_mul_dist v 10 (by norm_num)
    calc |((pyRound (v / 10) * 10 : ℤ) : ℚ) - v|
        = |(pyRound (v / 10) : ℚ) * 10 - v| := by push_cast; ring_nf
      _ ≤ 10 / 2 := h3

theorem round_fat_rule (v : ℚ) : fatRule v (round_fat v) := by
  refine ⟨?_, ?_, ?_⟩
  · intro h
    rw [round_fat, if_pos h]
  · intro h1 h2
    rw [round_fat, if_neg (not_lt.mpr h1), if_pos h2]
    refine ⟨⟨pyRound (v * 2), by ring⟩, ?_⟩
    have h3 := pyRound_div_dist v 2 (by norm_num)
    calc |(pyRound (v * 2) : ℚ) / 2 - v| ≤ 1 / (2 * 2) := h3
      _ = (1/2) / 2 := by norm_num
  · intro h1
    rw [round_fat, if_neg (by linarith : ¬ v < 1/2), if_neg (not_lt.mpr h1)]
    refine ⟨⟨pyRound v, by ring⟩, ?_⟩
    have h3 := pyRound_dist v
    calc |(pyRound v : ℚ) - v| ≤ 1/2 := h3
      _ = 1 / 2 := by norm_num

theorem round_cholesterol_rule (v : ℚ) : cholesterolRule v (round_cholesterol v) := by
  refine ⟨?_, ?_⟩
  · intro h
    simp [round_cholesterol, h]
  · intro h1
    rw [round_cholesterol, if_neg (not_lt.mpr h1)]
    refine ⟨⟨pyRound (v / 5), by push_cast; ring⟩, ?_⟩
    have h3 := pyRound_mul_dist v 5 (by norm_num)
    calc |((pyRound (v / 5) * 5 : ℤ) : ℚ) - v|
        = |(pyRound (v / 5) : ℚ) * 5 - v| := by push_cast; ring_nf
      _ ≤ 5 / 2 := h3

theorem round_sodium_rule (v : ℚ) : sodiumRule v (round_sodium v) := by
  refine ⟨?_, ?_, ?_⟩
  · intro h
    simp [round_sodium, h]
  · intro h1 h2
    rw [round_sodium, if_neg (not_lt.mpr h1), if_pos h2]
    refine ⟨⟨pyRound (v / 5), by push_cast; ring⟩, ?_⟩
    have h3 := pyRound_mul_dist v 5 (by norm_num)
    calc |((pyRound (v / 5) * 5 : ℤ) : ℚ) - v|
        = |(pyRound (v / 5) : ℚ) * 5 - v| := by push_cast; ring_nf
      _ ≤ 5 / 2 := h3
  · intro h1
    rw [round_sodium, if_neg (by linarith : ¬ v < 5), if_neg (not_le.mpr h1)]
    refine ⟨⟨pyRound (v / 10), by push_cast; ring⟩, ?_⟩
    have h3 := pyRound_mul_dist v 10 (by norm_num)
    calc |((pyRound (v / 10) * 10 : ℤ) : ℚ) - v|
        = |(pyRound (v / 10) : ℚ) * 10 - v| := by push_cast; ring_nf
      _ ≤ 10 / 2 := h3

theorem round_gram_rule (v : ℚ) : gramRule v (round_carb_fiber_sugar_protein v) := by
  refine ⟨?_, ?_⟩
  · intro h
    rw [round_carb_fiber_sugar_protein, if_pos h]
  · intro h1
    rw [round_carb_fiber_sugar_protein, if_neg (not_lt.mpr h1)]
    exact ⟨⟨pyRound v, by ring⟩, by simpa using pyRound_dist v⟩

theorem round_generic_rule (v : ℚ) : oneDecimalRule v (round_generic v) := by
  rw [oneDecimalRule, round_generic]
  refine ⟨⟨pyRound (v * 10), by ring⟩, ?_⟩
  have h3 := pyRound_div_dist v 10 (by norm_num)
  calc |(pyRound (v * 10) : ℚ) / 10 - v| ≤ 1 / (2 * 10) := h3
    _ = (1/10) / 2 := by norm_num

/-- The dispatched rounding rule of the source satisfies, for every key,
the rule of the spec table that matches that key. -/
theorem dispatch_rule (key : String) (v : ℚ) : specRuleFor key v (dispatch key v) := by
  rw [specRuleFor, dispatch]
  by_cases h1 : substrIn "calor" (strLower key) = true
  · simp only [if_pos h1]
    exact round_calories_rule v
  · simp only [if_neg h1]
    by_cases h2 : substrIn "fat" (strLower key) = true
    · simp only [if_pos h2]
      exact round_fat_rule v
    · simp only [if_neg h2]
      by_cases h3 : substrIn "cholest" (strLower key) = true
      · simp only [if_pos h3]
        exact round_cholesterol_rule v
      · simp only [if_neg h3]
        by_cases h4 : substrIn "sodium" (strLower key) = true
        · simp only [if_pos h4]
          exact round_sodium_rule v
        · simp only [if_neg h4]
          by_cases h5 : substrIn "potass" (strLower key) = true
          · simp only [if_pos h5]
            exact round_sodium_rule v
          · simp only [if_neg h5]
            by_cases h6 : (substrIn "carb" (strLower key) || substrIn "fiber" (strLower key)
                || substrIn "sugar" (strLower key) || substrIn "protein" (strLower key)) = true
            · simp only [if_pos h6]
              exact round_gram_rule v
            · simp only [if_neg h6]
              exact round_generic_rule v

theorem alookup_setKey_self {α : Type} (m : List (String × α)) (k : String) (v : α) :
    alookup (setKey m k v) k = some v := by
  induction m with
  | nil => simp [setKey, alookup]
  | cons kv t ih =>
    by_cases h : kv.1 = k
    · simp [setKey, h, alookup]
    · rcases kv with ⟨k', v'⟩
      simp only at h
      simp [setKey, h, alookup, ih]

theorem get_food_log_unfold (reM : String → Option (String → Bool))
    (fnM : String → String → Bool) (store : List (String × List Entry))
    (today incl td : String) (ed : Option String) (ft : Option (List String))
    (ur : Bool) (hres : resolveDate ed today = Except.ok td) :
    get_food_log reM fnM store today ed incl ft ur
      = match alookup store td with
        | none => Except.ok (emptyDayResult td)
        | some items0 =>
          if incl ≠ "totals" then
            Except.ok { date := td,
                        totals := some (queryTotals reM fnM items0 ft ur),
                        items := some ((applyFilter reM fnM items0 ft ur).map roundEntry),
                        message := none }
          else
            Except.ok { date := td,
                        totals := some (queryTotals reM fnM items0 ft ur),
                        items := none,
                        message := none } := by
  rw [get_food_log, hres]
  rfl

theorem revise_log_entry_unfold (store : List (String × List Entry))
    (today name td : String) (updates : List (String × JVal)) (ed : Option String)
    (hres : resolveDate ed today = Except.ok td) :
    revise_log_entry store today name updates ed
      = match alookup store td with
        | none => (store, Except.error (LogError.notFoundDate td))
        | some items =>
          if (items.filter (fun it => entryNameIs it name)).length = 0 then
            (store, Except.error (LogError.notFoundEntry name td))
          else
            (setKey store td (items.map (fun it =>
              if entryNameIs it name then dictUpdate it updates else it)),
             Except.ok (items.filter (fun it => entryNameIs it name)).length) := by
  rw [revise_log_entry, hres]

theorem exactSum_shift (items : List Entry) (n : String) (a : ℚ) :
    items.foldl (fun acc it => acc + contrib it n) a = a + exactSum items n := by
  induction items generalizing a with
  | nil => simp [exactSum]
  | cons it t ih =>
    rw [List.foldl_cons, ih]
    conv_rhs => rw [exactSum, List.foldl_cons, zero_add, ih]
    ring

theorem exactSum_cons (it : Entry) (t : List Entry) (n : String) :
    exactSum (it :: t) n = contrib it n + exactSum t n := by
  rw [exactSum, List.foldl_cons, zero_add, exactSum_shift]

theorem alookup_map_val {α β : Type} (l : List (String × α)) (g : String → α → β)
    (n : String) :
    alookup (l.map (fun kv => (kv.1, g kv.1 kv.2))) n = (alookup l n).map (g n) := by
  induction l with
  | nil => rfl
  | cons kv t ih =>
    rcases kv with ⟨k, v⟩
    by_cases h : k = n
    · subst h
      simp [alookup]
    · simp [alookup, h, ih]

theorem alookup_foldl_addItemTotals (items : List Entry) (init : List (String × ℚ))
    (n : String) :
    alookup (items.foldl addItemTotals init) n
      = (alookup init n).map (fun q => q + exactSum items n) := by
  induction items generalizing init with
  | nil =>
    cases h : alookup init n <;> simp [h, exactSum]
  | cons it t ih =>
    have hm := alookup_map_val init (fun k q => q + contrib it k) n
    rw [List.foldl_cons, ih, addItemTotals, hm]
    cases h : alookup init n <;> simp [h, exactSum_cons, add_assoc]

theorem round_all_map_some (l : List (String × ℚ)) :
    round_all (l.map (fun kv => (kv.1, some kv.2)))
      = l.map (fun kv => (kv.1, dispatch kv.1 kv.2)) := by
  induction l with
  | nil => rfl
  | cons kv t ih => simp [round_all, List.filterMap_cons] at ih ⊢; exact ih

theorem parseRows_filter (rs : List (List String)) :
    parseRows rs = parseRows (rs.filter (fun r => 2 ≤ r.length)) := by
  have aux : ∀ (l : List (List String)) (acc : List (String × String)),
      l.foldl parseRow acc = (l.filter (fun r => 2 ≤ r.length)).foldl parseRow acc := by
    intro l
    induction l with
    | nil => intro acc; rfl
    | cons r t ih =>
      intro acc
      match r with
      | [] => simpa [parseRow] using ih acc
      | [x] => simpa [parseRow] using ih acc
      | x :: y :: rest => simp [parseRow, ih]
  rw [parseRows, parseRows, aux]

theorem sanitizeChar_idem (c : Char) : sanitizeChar (sanitizeChar c) = sanitizeChar c := by
  by_cases h : (pyIsAlnum c || c == '-' || c == '_' || c == '.') = true
  · have hc : sanitizeChar c = c := by rw [sanitizeChar, if_pos h]
    rw [hc]
    exact hc
  · have hc : sanitizeChar c = '_' := by rw [sanitizeChar, if_neg h]
    rw [hc]
    decide

theorem map_sanitize_idem (l : List Char) :
    (l.map sanitizeChar).map sanitizeChar = l.map sanitizeChar := by
  induction l with
  | nil => rfl
  | cons c t ih => simp [sanitizeChar_idem, ih]

/-! ## Claim theorems -/

/-- C2: `round_all` applies to each key exactly one rule, selected by
case-insensitive substring match on the key name as the table of §4.5
lists the rows (a key containing `calor` gets the calorie rule, etc., all
spelled out by `specRuleFor`), and a null-valued key is dropped from the
output mapping entirely rather than rounded to zero. -/
theorem c2_round_all_applies_table_rules (key k : String) (v : ℚ)
    (m : List (String × Option ℚ)) :
    specRuleFor key v (dispatch key v) ∧
    round_all ((k, (none : Option ℚ)) :: m) = round_all m ∧
    round_all ((key, some v) :: m) = (key, dispatch key v) :: round_all m := by
  refine ⟨dispatch_rule key v, ?_, ?_⟩ <;> simp [round_all, List.filterMap_cons]

/-- C10: the rounder never invents, removes (except null-valued), renames
or re-cases keys: the output key sequence is exactly the input key
sequence restricted to keys with non-null values, each key in its original
spelling.  (The Lean embedding is a pure function, so the input mapping
itself is unmodified by construction, as in the source, which builds a
fresh dict.) -/
theorem c10_round_all_preserves_keys (m : List (String × Option ℚ)) :
    (round_all m).map Prod.fst = (m.filter (fun kv => kv.2.isSome)).map Prod.fst := by
  induction m with
  | nil => rfl
  | cons kv t ih =>
    rcases kv with ⟨k, v⟩
    cases v with
    | none => simpa [round_all, List.filterMap_cons, List.filter_cons] using ih
    | some q => simpa [round_all, List.filterMap_cons, List.filter_cons] using ih

/-! ## Concrete evaluations of the rounder -/

theorem floorEval (x : ℚ) (n : ℤ) (h1 : (n : ℚ) ≤ x) (h2 : x < n + 1) : ⌊x⌋ = n :=
  Int.floor_eq_iff.mpr ⟨h1, by exact_mod_cast h2⟩

theorem dispatch_calories_eq (v : ℚ) :
    dispatch "calories" v = ((round_calories v : ℤ) : ℚ) := by
  rw [dispatch, if_pos (by decide)]

theorem round_calories_97 : round_calories 97 = 100 := by
  have h : ⌊(97 : ℚ) / 10⌋ = 9 := floorEval _ 9 (by norm_num) (by norm_num)
  rw [round_calories, if_neg (by norm_num), if_neg (by norm_num), pyRound, h]
  norm_num

theorem round_calories_95 : round_calories 95 = 100 := by
  have h : ⌊(95 : ℚ) / 10⌋ = 9 := floorEval _ 9 (by norm_num) (by norm_num)
  rw [round_calories, if_neg (by norm_num), if_neg (by norm_num), pyRound, h]
  norm_num

theorem round_calories_2 : round_calories 2 = 0 := by
  rw [round_calories, if_pos (by norm_num)]

theorem dispatch_calories_97 : dispatch "calories" 97 = 100 := by
  rw [dispatch_calories_eq, round_calories_97]
  norm_num

theorem dispatch_calories_95 : dispatch "calories" 95 = 100 := by
  rw [dispatch_calories_eq, round_calories_95]
  norm_num

theorem dispatch_calories_2 : dispatch "calories" 2 = 0 := by
  rw [dispatch_calories_eq, round_calories_2]
  norm_num

theorem dispatch_calories_7_2 : dispatch "calories" (36/5) = 5 := by
  have h : ⌊(36 : ℚ) / 5 / 5⌋ = 1 := floorEval _ 1 (by norm_num) (by norm_num)
  rw [dispatch_calories_eq, round_calories, if_neg (by norm_num), if_pos (by norm_num),
    pyRound, h]
  norm_num

theorem dispatch_protein_0 : dispatch "protein" 0 = 0 := by
  rw [dispatch, if_neg (by decide), if_neg (by decide), if_neg (by decide),
    if_neg (by decide), if_neg (by decide), if_pos (by decide),
    round_carb_fiber_sugar_protein, if_pos (by norm_num)]

theorem dispatch_carbs_0 : dispatch "carbs" 0 = 0 := by
  rw [dispatch, if_neg (by decide), if_neg (by decide), if_neg (by decide),
    if_neg (by decide), if_neg (by decide), if_pos (by decide),
    round_carb_fiber_sugar_protein, if_pos (by norm_num)]

theorem dispatch_fat_0 : dispatch "fat" 0 = 0 := by
  rw [dispatch, if_neg (by decide), if_pos (by decide), round_fat, if_pos (by norm_num)]

theorem dispatch_sodium_0 : dispatch "sodium" 0 = 0 := by
  rw [dispatch, if_neg (by decide), if_neg (by decide), if_neg (by decide),
    if_pos (by decide), round_sodium, if_pos (by norm_num)]

theorem dispatch_potassium_0 : dispatch "potassium" 0 = 0 := by
  rw [dispatch, if_neg (by decide), if_neg (by decide), if_neg (by decide),
    if_neg (by decide), if_pos (by decide), round_potassium, round_sodium,
    if_pos (by norm_num)]

theorem dispatch_fiber_0 : dispatch "fiber" 0 = 0 := by
  rw [dispatch, if_neg (by decide), if_neg (by decide), if_neg (by decide),
    if_neg (by decide), if_neg (by decide), if_pos (by decide),
    round_carb_fiber_sugar_protein, if_pos (by norm_num)]

theorem dispatch_sugar_0 : dispatch "sugar" 0 = 0 := by
  rw [dispatch, if_neg (by decide), if_neg (by decide), if_neg (by decide),
    if_neg (by decide), if_neg (by decide), if_pos (by decide),
    round_carb_fiber_sugar_protein, if_pos (by norm_num)]

theorem aggFold_eval :
    [burgerEntry, mintEntry].foldl addItemTotals initTotals
      = [("calories", (97 : ℚ)), ("protein", 0), ("carbs", 0), ("fat", 0),
         ("sodium", 0), ("potassium", 0), ("fiber", 0), ("sugar", 0)] := by
  simp +decide only [addItemTotals, initTotals, trackedNutrients, contrib, getNutrition,
    alookup, numVal, burgerEntry, mintEntry, List.foldl_cons, List.foldl_nil,
    List.map_cons, List.map_nil]
  norm_num

theorem aggTotals_eval :
    round_all (([burgerEntry, mintEntry].foldl addItemTotals initTotals).map
      (fun kv => (kv.1, some kv.2))) = aggTotals := by
  rw [aggFold_eval, round_all_map_some]
  simp only [List.map_cons, List.map_nil]
  rw [aggTotals, dispatch_calories_97, dispatch_protein_0, dispatch_carbs_0,
    dispatch_fat_0, dispatch_sodium_0, dispatch_potassium_0, dispatch_fiber_0,
    dispatch_sugar_0]

theorem alookup_initTotals (n : String) (hn : n ∈ trackedNutrients) :
    alookup initTotals n = some 0 := by
  fin_cases hn <;> rfl

theorem roundEntry_rawEntry :
    roundEntry rawEntry
      = [("food_name", JVal.jstr "Snack"),
         ("consumed", JVal.jobj [("nutrition", JVal.jobj [("calories", JVal.jnum 5)])])] := by
  have h : (5 : ℚ) = dispatch "calories" (36/5) := dispatch_calories_7_2.symm
  conv_rhs => rw [h]
  rfl

/-- C1, counterexample: on the claim's own example (logged calories 95
and 2), the query's total is the single rounding of the exact sum 97,
but that rounding is 100 (97 is above 50, so the nearest-ten band
applies), not 95 as the claim states.  The items do round individually
to 100 and 0 as claimed. -/
theorem c1_counterexample_sum97_rounds_to_100 :
    get_food_log noRegex noGlob aggStore "2026-01-10" (some "2026-01-10")
        "totals" none false = Except.ok aggResult ∧
    alookup (aggResult.totals.getD []) "calories" = some 100 ∧
    dispatch "calories" 95 = 100 ∧ dispatch "calories" 2 = 0 ∧
    dispatch "calories" (95 + 2) = 100 ∧ (100 : ℚ) ≠ 95 := by
  refine ⟨?_, rfl, dispatch_calories_95, dispatch_calories_2, ?_, by norm_num⟩
  · rw [aggResult, ← aggTotals_eval]
    rfl
  · have h : (95 + 2 : ℚ) = 97 := by norm_num
    rw [h, dispatch_calories_97]

/-- C1 (amended): the daily-log query computes each total by applying the
nutrient rounding rule exactly once to the exact (unrounded) sum of the
filtered items' stored values — never by summing per-item rounded values;
on the concrete example of two logged items with calories 95 and 2, the
items round individually to 100 and 0, while the total is the single
rounding of the exact sum 97, which equals 100 (not 95: 97 is in the
nearest-ten band). -/
theorem c1_totals_round_exact_sum_once
    (reM : String → Option (String → Bool)) (fnM : String → String → Bool)
    (store : List (String × List Entry)) (today d incl : String)
    (ft : Option (List String)) (ur : Bool) (items0 : List Entry) (r : QueryResult)
    (hd : validDate d = true)
    (hfound : alookup store d = some items0)
    (hq : get_food_log reM fnM store today (some d) incl ft ur = Except.ok r) :
    ∀ n ∈ trackedNutrients,
      alookup (r.totals.getD []) n
        = some (dispatch n (exactSum (applyFilter reM fnM items0 ft ur) n)) := by
  intro n hn
  rw [get_food_log, resolveDate, hd] at hq
  simp only [if_true] at hq
  rw [hfound] at hq
  simp only [] at hq
  by_cases hi : incl ≠ "totals"
  · rw [if_pos hi, Except.ok.injEq] at hq
    subst hq
    simp only [Option.getD_some]
    rw [round_all_map_some, alookup_map_val, alookup_foldl_addItemTotals,
      alookup_initTotals n hn]
    simp
  · rw [if_neg hi, Except.ok.injEq] at hq
    subst hq
    simp only [Option.getD_some]
    rw [round_all_map_some, alookup_map_val, alookup_foldl_addItemTotals,
      alookup_initTotals n hn]
    simp

/-- Witness for C1's theorem at the concrete burger-and-mint store. -/
theorem c1_totals_round_exact_sum_once_witness :
    validDate "2026-01-10" = true ∧
    alookup aggStore "2026-01-10" = some [burgerEntry, mintEntry] ∧
    get_food_log noRegex noGlob aggStore "2026-01-10" (some "2026-01-10")
        "totals" none false = Except.ok aggResult ∧
    "calories" ∈ trackedNutrients ∧
    alookup (aggResult.totals.getD []) "calories"
      = some (dispatch "calories"
          (exactSum (applyFilter noRegex noGlob [burgerEntry, mintEntry] none false)
            "calories")) := by
  have hv : validDate "2026-01-10" = true := by decide
  have hf : alookup aggStore "2026-01-10" = some [burgerEntry, mintEntry] := rfl
  have hq : get_food_log noRegex noGlob aggStore "2026-01-10" (some "2026-01-10")
      "totals" none false = Except.ok aggResult := by
    rw [aggResult, ← aggTotals_eval]
    rfl
  exact ⟨hv, hf, hq, by decide,
    c1_totals_round_exact_sum_once noRegex noGlob aggStore "2026-01-10" "2026-01-10"
      "totals" none false [burgerEntry, mintEntry] aggResult hv hf hq "calories"
      (by decide)⟩

/-- C3: `revise_log_entry` fails with NotFound when the date file is
absent or when no entry's `food_name` exactly equals the target (leaving
the store unchanged in both cases), and otherwise shallow-merges the
updates into every matching entry — all of them at once — persists the
collection, and reports the number of entries updated. -/
theorem c3_revise_updates_every_exact_match
    (store : List (String × List Entry)) (today td name : String)
    (updates : List (String × JVal)) (ed : Option String) (items : List Entry)
    (hres : resolveDate ed today = Except.ok td) :
    (alookup store td = none →
      revise_log_entry store today name updates ed
        = (store, Except.error (LogError.notFoundDate td))) ∧
    (alookup store td = some items →
      ((items.filter (fun it => entryNameIs it name)).length = 0 →
        revise_log_entry store today name updates ed
          = (store, Except.error (LogError.notFoundEntry name td))) ∧
      (0 < (items.filter (fun it => entryNameIs it name)).length →
        revise_log_entry store today name updates ed
          = (setKey store td (items.map (fun it =>
              if entryNameIs it name then dictUpdate it updates else it)),
             Except.ok (items.filter (fun it => entryNameIs it name)).length))) := by
  rw [revise_log_entry_unfold store today name td updates ed hres]
  constructor
  · intro h
    simp only [h]
  · intro h
    simp only [h]
    constructor
    · intro h0
      rw [if_pos h0]
    · intro h0
      rw [if_neg (by omega)]

/-- Witness for C3's theorem: two entries named `Coffee` on one date are
both updated by a single revision, which reports the count 2. -/
theorem c3_revise_updates_every_exact_match_witness :
    resolveDate (some "2026-01-10") "2099-01-01" = Except.ok "2026-01-10" ∧
    alookup coffeeStore "2026-01-10" = some [coffeeEntryA, coffeeEntryB] ∧
    0 < ([coffeeEntryA, coffeeEntryB].filter (fun it => entryNameIs it "Coffee")).length ∧
    revise_log_entry coffeeStore "2099-01-01" "Coffee" [("size", JVal.jstr "XL")]
        (some "2026-01-10")
      = ([("2026-01-10",
           [[("food_name", JVal.jstr "Coffee"), ("size", JVal.jstr "XL")],
            [("food_name", JVal.jstr "Coffee"), ("size", JVal.jstr "XL")]])],
         Except.ok 2) := by
  have h := (c3_revise_updates_every_exact_match coffeeStore "2099-01-01" "2026-01-10"
    "Coffee" [("size", JVal.jstr "XL")] (some "2026-01-10")
    [coffeeEntryA, coffeeEntryB] rfl).2 rfl
  refine ⟨rfl, rfl, by decide, ?_⟩
  rw [h.2 (by decide)]
  rfl

/-- C4: catalog add fails with ValidationError when the record's
`food_name` is missing (or null) or empty, fails with DuplicateKey when a
record with the same case-insensitive name already exists, and otherwise
appends the record; the persisted catalog is unchanged on either
failure. -/
theorem c4_add_to_catalog_checks
    (catalog : List Entry) (item : Entry) (name : String) :
    ((alookup item "food_name" = none ∨ alookup item "food_name" = some JVal.jnull ∨
      alookup item "food_name" = some (JVal.jstr "")) →
      add_to_catalog catalog item = (catalog, AddOutcome.validationError)) ∧
    (alookup item "food_name" = some (JVal.jstr name) → name ≠ "" →
      (catalog.any (fun r => catalogNameMatches r name) = true →
        add_to_catalog catalog item = (catalog, AddOutcome.duplicateKey)) ∧
      (catalog.any (fun r => catalogNameMatches r name) = false →
        add_to_catalog catalog item = (catalog ++ [item], AddOutcome.added))) := by
  constructor
  · intro h
    rcases h with h | h | h <;> rw [add_to_catalog, h] <;> rfl
  · intro hn hne
    have ht : (!truthy (JVal.jstr name)) = false := by
      simp [truthy, hne]
    constructor
    · intro hdup
      rw [add_to_catalog, hn]
      simp only [Option.getD_some, ht, Bool.false_eq_true, if_false]
      rw [if_pos hdup]
    · intro hnodup
      rw [add_to_catalog, hn]
      simp only [Option.getD_some, ht, Bool.false_eq_true, if_false]
      rw [if_neg (by simp [hnodup])]

/-- Witness for C4's theorem: `add("Apple")` followed by `add("apple")`
makes the second call fail with DuplicateKey, catalog unchanged. -/
theorem c4_add_to_catalog_checks_witness :
    alookup [("food_name", JVal.jstr "apple")] "food_name"
      = some (JVal.jstr "apple") ∧
    ("apple" : String) ≠ "" ∧
    ([[("food_name", JVal.jstr "Apple")]] : List Entry).any
      (fun r => catalogNameMatches r "apple") = true ∧
    add_to_catalog [[("food_name", JVal.jstr "Apple")]]
        [("food_name", JVal.jstr "apple")]
      = ([[("food_name", JVal.jstr "Apple")]], AddOutcome.duplicateKey) := by
  refine ⟨rfl, by decide, by decide, ?_⟩
  exact ((c4_add_to_catalog_checks [[("food_name", JVal.jstr "Apple")]]
    [("food_name", JVal.jstr "apple")] "apple").2 rfl (by decide)).1 (by decide)

/-- C5, counterexample: the sanitizer does not replace every character
outside `[A-Za-z0-9._-]` with `_`: Python's `str.isalnum` is
Unicode-aware, so `é` (U+00E9) is kept, while the claim's ASCII rule
would map it to `_`. -/
theorem c5_counterexample_unicode_alnum_kept :
    sanitize "é" = "é" ∧ claimSanitize "é" = "_" ∧ ("é" : String) ≠ "_" ∧
    get_app_data_dir ["root"] "é" = ["root", "é"] := by
  refine ⟨by decide, by decide, by decide, ?_⟩
  rw [get_app_data_dir, if_neg (by decide)]
  decide

/-- C5 (amended): tenant path resolution is a total pure function: the
sentinel `"default"` returns the data root unchanged, every other
identity returns `dataRoot / sanitize(tenantId)`; `sanitize` keeps every
character that Python's Unicode-aware `isalnum` accepts (a superset of
`[A-Za-z0-9]`) together with `-`, `_` and `.`, replaces every other
character (including `@`) with `_`, and is idempotent. -/
theorem c5_tenant_path_resolution (base : List String) (user : String) (c : Char) :
    get_app_data_dir base "default" = base ∧
    (user ≠ "default" → get_app_data_dir base user = base ++ [sanitize user]) ∧
    sanitize (sanitize user) = sanitize user ∧
    ((c.isAlphanum || c == '-' || c == '_' || c == '.') = true → sanitizeChar c = c) ∧
    (pyIsAlnum c = false → (c == '-' || c == '_' || c == '.') = false →
      sanitizeChar c = '_') := by
  refine ⟨by rw [get_app_data_dir, if_pos rfl], ?_, ?_, ?_, ?_⟩
  · intro h
    rw [get_app_data_dir, if_neg h]
  · exact congrArg String.mk (map_sanitize_idem user.toList)
  · intro h
    have hc : (pyIsAlnum c || c == '-' || c == '_' || c == '.') = true := by
      rw [pyIsAlnum]
      simp only [Bool.or_eq_true] at h ⊢
      tauto
    rw [sanitizeChar, if_pos hc]
  · intro h1 h2
    have hc : (pyIsAlnum c || c == '-' || c == '_' || c == '.') = false := by
      rw [h1, Bool.false_or, h2]
    rw [sanitizeChar, if_neg (by simp [hc])]

/-- Witness for C5's theorem at the email-like tenant
`user@example.com`. -/
theorem c5_tenant_path_resolution_witness :
    ("user@example.com" : String) ≠ "default" ∧
    get_app_data_dir ["root"] "user@example.com" = ["root", "user_example.com"] ∧
    pyIsAlnum '@' = false ∧ ('@' == '-' || '@' == '_' || '@' == '.') = false ∧
    sanitizeChar '@' = '_' := by
  refine ⟨by decide, ?_, by decide, by decide, ?_⟩
  · rw [(c5_tenant_path_resolution ["root"] "user@example.com" '@').2.1 (by decide)]
    decide
  · exact (c5_tenant_path_resolution [] "x" '@').2.2.2.2 (by decide) (by decide)

/-- C6, counterexample: an unreadable (existing but failing to read)
backing file does not make the loaded record set empty: `refresh_cache`
returns the previous in-memory cache unchanged. -/
theorem c6_counterexample_unreadable_keeps_old_cache :
    (refresh_cache { cache := [("tok", "u1")], file := UsersFile.unreadable }).2
      = [("tok", "u1")] ∧
    ([("tok", "u1")] : List (String × String)) ≠ [] := ⟨rfl, by decide⟩

/-- C6 (amended): every row of `users.csv` with fewer than two fields is
skipped while all other rows are still loaded (the parse equals the parse
of the well-formed rows alone); an absent backing file degrades to the
empty record set, and an unreadable one leaves the previously loaded
record set in place (the empty set when nothing was loaded before) —
neither raises. -/
theorem c6_refresh_cache_row_semantics (c : List (String × String))
    (rs : List (List String)) :
    refresh_cache { cache := c, file := UsersFile.rows rs }
      = ({ cache := parseRows (rs.filter (fun r => 2 ≤ r.length)),
           file := UsersFile.rows rs },
         parseRows (rs.filter (fun r => 2 ≤ r.length))) ∧
    refresh_cache { cache := c, file := UsersFile.absent }
      = ({ cache := [], file := UsersFile.absent }, []) ∧
    refresh_cache { cache := c, file := UsersFile.unreadable }
      = ({ cache := c, file := UsersFile.unreadable }, c) := by
  refine ⟨?_, rfl, rfl⟩
  rw [← parseRows_filter]
  rfl

/-- C7: identity lookup consults the in-memory cache first (returning the
cached value with no reload), reloads from the backing file only on a
miss, and returns NotFound only when the token is absent after that
reload; consequently, after `add_user(tok, u1)` and an external rewrite
of the backing file mapping `tok` to `u2`, lookup of `tok` still returns
`u1`, until a miss on another token triggers a reload, after which it
returns `u2`. -/
theorem c7_lookup_cache_first_reload_on_miss
    (s : UserStoreState) (pat email : String) (s0 : UserStoreState)
    (tok u1 u2 other : String) :
    (alookup s.cache pat = some email → get_user_by_pat s pat = (s, some email)) ∧
    (alookup s.cache pat = none →
      get_user_by_pat s pat
        = ((refresh_cache s).1, alookup ((refresh_cache s).1).cache pat)) ∧
    ((get_user_by_pat (staleState s0 tok u1 u2) tok).2 = some u1) ∧
    ((get_user_by_pat (staleState s0 tok u1 u2) tok).1 = staleState s0 tok u1 u2) ∧
    (alookup (staleState s0 tok u1 u2).cache other = none →
      (get_user_by_pat ((get_user_by_pat (staleState s0 tok u1 u2) other).1) tok).2
        = some u2) := by
  have hit : ∀ (t : UserStoreState) (p e : String), alookup t.cache p = some e →
      get_user_by_pat t p = (t, some e) := by
    intro t p e h
    rw [get_user_by_pat, h]
  have miss : ∀ (t : UserStoreState) (p : String), alookup t.cache p = none →
      get_user_by_pat t p = ((refresh_cache t).1, alookup ((refresh_cache t).1).cache p) := by
    intro t p h
    rw [get_user_by_pat, h]
  have hcache : alookup (staleState s0 tok u1 u2).cache tok = some u1 :=
    alookup_setKey_self _ tok u1
  refine ⟨hit s pat email, miss s pat, ?_, ?_, ?_⟩
  · rw [hit _ tok u1 hcache]
  · rw [hit _ tok u1 hcache]
  · intro h
    rw [miss _ other h]
    have hre : (refresh_cache (staleState s0 tok u1 u2)).1
        = { cache := [(tok, u2)], file := UsersFile.rows [[tok, u2]] } := rfl
    rw [hre]
    have hl : alookup [(tok, u2)] tok = some u2 := by
      rw [alookup, if_pos rfl]
    rw [hit _ tok u2 hl]

/-- Witness for C7's theorem: concrete cache hit, and the concrete
staleness scenario with tokens and tenants spelled out. -/
theorem c7_lookup_cache_first_reload_on_miss_witness :
    alookup seededUserStore.cache "p" = some "e" ∧
    get_user_by_pat seededUserStore "p" = (seededUserStore, some "e") ∧
    alookup (staleState emptyUserStore "tok" "u1" "u2").cache "x" = none ∧
    (get_user_by_pat (staleState emptyUserStore "tok" "u1" "u2") "tok").2
      = some "u1" ∧
    (get_user_by_pat
      ((get_user_by_pat (staleState emptyUserStore "tok" "u1" "u2") "x").1) "tok").2
      = some "u2" := by
  have h := c7_lookup_cache_first_reload_on_miss seededUserStore "p" "e"
    emptyUserStore "tok" "u1" "u2" "x"
  exact ⟨rfl, h.1 rfl, rfl, h.2.2.1, h.2.2.2.2 rfl⟩

/-- C8, counterexample: the non-error result for a date with no log file
is `{date, items: [], message}` with NO totals mapping, so not every
non-error query result carries a rounded totals mapping. -/
theorem c8_counterexample_empty_result_lacks_totals :
    get_food_log noRegex noGlob [] "2026-01-10" none "all" none false
      = Except.ok (emptyDayResult "2026-01-10") ∧
    (emptyDayResult "2026-01-10").totals.isSome = false ∧
    (emptyDayResult "2026-01-10").items = some [] ∧
    (emptyDayResult "2026-01-10").message = some "No logs found for this date." :=
  ⟨rfl, rfl, rfl, rfl⟩

/-- C8 (amended): every non-error result of the daily-log query carries
the resolved date; when the date file exists the result also carries the
rounded totals mapping (and items unless `include = "totals"`); when no
file exists the result is the empty-items record with a human-readable
note and no totals, rather than an error. -/
theorem c8_query_result_shape
    (reM : String → Option (String → Bool)) (fnM : String → String → Bool)
    (store : List (String × List Entry)) (today incl td : String)
    (ed : Option String) (ft : Option (List String)) (ur : Bool) (r : QueryResult)
    (hres : resolveDate ed today = Except.ok td)
    (hq : get_food_log reM fnM store today ed incl ft ur = Except.ok r) :
    r.date = td ∧
    (alookup store td = none → r = emptyDayResult td) ∧
    (∀ items0, alookup store td = some items0 →
      r.totals.isSome = true ∧ (incl ≠ "totals" → r.items.isSome = true) ∧
      r.message = none) := by
  rw [get_food_log_unfold reM fnM store today incl td ed ft ur hres] at hq
  cases halk : alookup store td with
  | none =>
    simp only [halk] at hq
    rw [Except.ok.injEq] at hq
    subst hq
    refine ⟨rfl, fun _ => rfl, ?_⟩
    intro items0 h0
    exact Option.noConfusion h0
  | some items0 =>
    simp only [halk] at hq
    by_cases hi : incl ≠ "totals"
    · rw [if_pos hi, Except.ok.injEq] at hq
      subst hq
      refine ⟨rfl, ?_, ?_⟩
      · intro h0
        exact Option.noConfusion h0
      · intro items1 _
        exact ⟨rfl, fun _ => rfl, rfl⟩
    · rw [if_neg hi, Except.ok.injEq] at hq
      subst hq
      refine ⟨rfl, ?_, ?_⟩
      · intro h0
        exact Option.noConfusion h0
      · intro items1 _
        exact ⟨rfl, fun hcon => absurd hcon hi, rfl⟩

/-- Witness for C8's theorem: querying an empty store returns the
empty-items record for the resolved date. -/
theorem c8_query_result_shape_witness :
    resolveDate none "2026-01-10" = Except.ok "2026-01-10" ∧
    get_food_log noRegex noGlob [] "2026-01-10" none "all" none false
      = Except.ok (emptyDayResult "2026-01-10") ∧
    (emptyDayResult "2026-01-10").date = "2026-01-10" ∧
    alookup ([] : List (String × List Entry)) "2026-01-10" = none ∧
    emptyDayResult "2026-01-10" = emptyDayResult "2026-01-10" := by
  have h := c8_query_result_shape noRegex noGlob [] "2026-01-10" "all" "2026-01-10"
    none none false (emptyDayResult "2026-01-10") rfl rfl
  exact ⟨rfl, rfl, h.1, rfl, h.2.1 rfl⟩

/-- C9: the daily-log query never mutates stored state: the store after
any query equals the store before it, while the returned items (when
included) are rounded copies of the filtered stored entries — the stored
entries themselves stay at raw precision. -/
theorem c9_query_never_mutates_store
    (reM : String → Option (String → Bool)) (fnM : String → String → Bool)
    (store : List (String × List Entry)) (today incl : String)
    (ed : Option String) (ft : Option (List String)) (ur : Bool) :
    (queryOp reM fnM store today ed incl ft ur).1 = store ∧
    (∀ td items0 r,
      resolveDate ed today = Except.ok td →
      alookup store td = some items0 →
      get_food_log reM fnM store today ed incl ft ur = Except.ok r →
      incl ≠ "totals" →
      r.items = some ((applyFilter reM fnM items0 ft ur).map roundEntry) ∧
      alookup (queryOp reM fnM store today ed incl ft ur).1 td = some items0) := by
  refine ⟨rfl, ?_⟩
  intro td items0 r hres hfound hq hinc
  rw [get_food_log_unfold reM fnM store today incl td ed ft ur hres] at hq
  simp only [hfound] at hq
  rw [if_pos hinc, Except.ok.injEq] at hq
  subst hq
  exact ⟨rfl, hfound⟩

/-- Witness for C9's theorem: the stored snack keeps its raw 7.2 calories
after a query, while the returned copy is rounded to 5. -/
theorem c9_query_never_mutates_store_witness :
    (queryOp noRegex noGlob rawStore "2026-01-10" (some "2026-01-10") "all"
        none false).1 = rawStore ∧
    resolveDate (some "2026-01-10") "2026-01-10" = Except.ok "2026-01-10" ∧
    alookup rawStore "2026-01-10" = some [rawEntry] ∧
    get_food_log noRegex noGlob rawStore "2026-01-10" (some "2026-01-10") "all"
        none false = Except.ok rawQueryResult ∧
    ("all" : String) ≠ "totals" ∧
    rawQueryResult.items
      = some ((applyFilter noRegex noGlob [rawEntry] none false).map roundEntry) ∧
    alookup (queryOp noRegex noGlob rawStore "2026-01-10" (some "2026-01-10") "all"
        none false).1 "2026-01-10" = some [rawEntry] ∧
    roundEntry rawEntry
      = [("food_name", JVal.jstr "Snack"),
         ("consumed", JVal.jobj [("nutrition", JVal.jobj [("calories", JVal.jnum 5)])])] := by
  have h := (c9_query_never_mutates_store noRegex noGlob rawStore "2026-01-10" "all"
    (some "2026-01-10") none false).2 "2026-01-10" [rawEntry] rawQueryResult
    rfl rfl rfl (by decide)
  exact ⟨rfl, rfl, rfl, rfl, by decide, h.1, h.2, roundEntry_rawEntry⟩

end FoodAgent

